import Mathlib

/-!
Shallow embedding of the `live_transcriber` repository
(`session.py`, `ui.py`, `languages.py`, `transcription.py`).

Python dicts are modelled as insertion-ordered association lists,
Python `None` as `Option.none`, and the float `language_confidence`
as a rational number (exact for the literals and for the fixed 0.5
threshold the code compares against).  File and socket I/O is modelled
by returning the values the code would write and by taking the parsed
file contents as an argument.
-/

set_option maxHeartbeats 1000000

/-- Association-list lookup, modelling Python `dict` access
(`d.get(k)` / `k in d`).  Python dicts preserve insertion order. -/
def dictGet {κ α : Type} [DecidableEq κ] : List (κ × α) → κ → Option α
  | [], _ => none
  | (k', v) :: rest, k => if k' = k then some v else dictGet rest k

/-- Python `d[k] = v`: update the entry in place if the key exists,
otherwise append a new entry at the end. -/
def dictInsert {κ α : Type} [DecidableEq κ] : List (κ × α) → κ → α → List (κ × α)
  | [], k, v => [(k, v)]
  | (k', v') :: rest, k, v =>
    if k' = k then (k, v) :: rest else (k', v') :: dictInsert rest k v

/-- Python `str(x)` for an `Optional[str]`, as used by f-strings:
`None` prints as the literal text `None`. -/
def optStr : Option String → String
  | none => "None"
  | some s => s

/-- Python truthiness of an `Optional[str]` (`if lang:`):
true iff present and non-empty. -/
def langTruthy : Option String → Bool
  | none => false
  | some s => !(s == "")

/-- Python `str.lstrip()`: drop leading whitespace. -/
def pyLstrip (s : String) : String :=
  String.mk (s.data.dropWhile Char.isWhitespace)

/-- Python `str.strip()`: drop leading and trailing whitespace. -/
def pyStrip (s : String) : String :=
  String.mk (((s.data.dropWhile Char.isWhitespace).reverse.dropWhile Char.isWhitespace).reverse)

/-- Python `str.replace(pat, rep)` on character lists, left-to-right over
non-overlapping occurrences; the fuel argument (the input length) only
makes the recursion structural. -/
def replaceFuel (pat rep : List Char) : Nat → List Char → List Char
  | _, [] => []
  | 0, l => l
  | fuel + 1, c :: rest =>
    if pat.isPrefixOf (c :: rest) ∧ pat ≠ [] then
      rep ++ replaceFuel pat rep fuel ((c :: rest).drop pat.length)
    else c :: replaceFuel pat rep fuel rest

/-- Python `str.replace(pat, rep)` (for the non-empty patterns the code
uses). -/
def pyReplace (s pat rep : String) : String :=
  String.mk (replaceFuel pat.data rep.data s.data.length s.data)

/-- One recognized token.  In the source a token is a plain Python dict
read with `token.get(...)`; absent keys are `none` here. -/
structure Token where
  text : String := ""
  speaker : Option Nat := none
  language : Option String := none
  language_confidence : Option ℚ := none
  source_language : Option String := none
  translation_status : Option String := none
  is_final : Option Bool := none
  resolved_language : Option String := none
deriving DecidableEq

/-- `session.py` line 19: `LANGUAGE_CONFIDENCE_THRESHOLD = 0.5`. -/
def LANGUAGE_CONFIDENCE_THRESHOLD : ℚ := mkRat 1 2

/-- `SpeakerProfile` (`session.py` lines 25-65): language usage statistics
for one speaker.  `language_counts` is a `defaultdict(int)`. -/
structure SpeakerProfile where
  speaker_id : Nat
  language_counts : List (String × Nat)
  last_language : Option String
  total_samples : Nat
deriving DecidableEq

/-- `SpeakerProfile.__init__`: fresh profile with empty statistics. -/
def SpeakerProfile.fresh (speaker_id : Nat) : SpeakerProfile :=
  { speaker_id := speaker_id, language_counts := [], last_language := none, total_samples := 0 }

/-- `self.language_counts[language] += 1` on a `defaultdict(int)`:
increment the entry, inserting it with value 1 if absent. -/
def bumpCount : List (String × Nat) → String → List (String × Nat)
  | [], lang => [(lang, 1)]
  | (k, v) :: rest, lang =>
    if k = lang then (k, v + 1) :: rest else (k, v) :: bumpCount rest lang

/-- `SpeakerProfile.add_sample`: record one resolved language sample. -/
def SpeakerProfile.add_sample (p : SpeakerProfile) (language : String) : SpeakerProfile :=
  { p with
    language_counts := bumpCount p.language_counts language
    last_language := some language
    total_samples := p.total_samples + 1 }

/-- `SpeakerProfile.get_label`: display label for the speaker. -/
def SpeakerProfile.get_label (p : SpeakerProfile) : String :=
  "Speaker " ++ toString p.speaker_id

/-- The dictionary written by `SpeakerProfile.to_dict` and read by
`SpeakerProfile.from_dict` (the JSON value in the state file). -/
structure ProfileDict where
  language_counts : List (String × Nat) := []
  last_language : Option String := none
  total_samples : Nat := 0
deriving DecidableEq

/-- `SpeakerProfile.to_dict`. -/
def SpeakerProfile.to_dict (p : SpeakerProfile) : ProfileDict :=
  { language_counts := p.language_counts
    last_language := p.last_language
    total_samples := p.total_samples }

/-- `SpeakerProfile.from_dict`: the missing-key defaults come from the
`data.get(...)` calls in the source. -/
def SpeakerProfile.from_dict (speaker_id : Nat) (data : ProfileDict) : SpeakerProfile :=
  { speaker_id := speaker_id
    language_counts := data.language_counts
    last_language := data.last_language
    total_samples := data.total_samples }

/-- The mutable state of a `Session` (`session.py` lines 68-99).
The derived paths (`session_dir`, `state_file`) are pure functions of
`name` and are not repeated here; audio frames are byte strings,
modelled as lists of byte values. -/
structure Session where
  name : String
  source_languages : List String
  target_language : String
  speaker_profiles : List (Nat × SpeakerProfile)
  final_tokens : List Token
  segment_count : Nat
  audio_frames : List (List Nat)
  was_resumed : Bool
deriving DecidableEq

/-- `Session.get_speaker_profile`: get-or-create by speaker id.  In
Python this returns a live reference into `speaker_profiles`; here it
returns the profile together with the (possibly extended) session. -/
def Session.get_speaker_profile (s : Session) (speaker_id : Nat) :
    SpeakerProfile × Session :=
  match dictGet s.speaker_profiles speaker_id with
  | some p => (p, s)
  | none =>
    let p := SpeakerProfile.fresh speaker_id
    (p, { s with speaker_profiles := s.speaker_profiles ++ [(speaker_id, p)] })

/-- Writing back a mutated profile object: in Python mutating the object
returned by `get_speaker_profile` updates the entry in place. -/
def Session.set_profile (s : Session) (speaker_id : Nat) (p : SpeakerProfile) : Session :=
  { s with speaker_profiles := dictInsert s.speaker_profiles speaker_id p }

/-- `Session.add_audio_frame`. -/
def Session.add_audio_frame (s : Session) (frame : List Nat) : Session :=
  { s with audio_frames := s.audio_frames ++ [frame] }

/-- `Session.add_token`: append a finalized token. -/
def Session.add_token (s : Session) (token : Token) : Session :=
  { s with final_tokens := s.final_tokens ++ [token] }

/-- `token.get("language_confidence", 1.0)`. -/
def Token.confD (t : Token) : ℚ :=
  t.language_confidence.getD 1

/-- `resolve_language` (`session.py` lines 292-318): resolve the language
for a token, using speaker history when confidence is low, and record
the sample on the speaker's profile otherwise. -/
def resolve_language (token : Token) (session : Session) : String × Session :=
  match token.speaker with
  | none => (token.language.getD "en", session)
  | some speaker =>
    let confidence := token.language_confidence.getD 1
    let pr := session.get_speaker_profile speaker
    let profile := pr.1
    let s1 := pr.2
    if confidence < LANGUAGE_CONFIDENCE_THRESHOLD ∧ profile.last_language ≠ none then
      (profile.last_language.getD "en", s1)
    else
      match token.language with
      | some lang => (lang, s1.set_profile speaker (profile.add_sample lang))
      | none =>
        match profile.last_language with
        | some l => (l, s1)
        | none => ("en", s1)

/-- Folding `resolve_language` over a token sequence (the per-token call
made by `Transcriber._receive_messages`), keeping only the session. -/
def resolveAll (tokens : List Token) (s : Session) : Session :=
  tokens.foldl (fun acc t => (resolve_language t acc).2) s

/-- Fold state of `Session.render_plain_text` (`session.py` lines 246-289):
the accumulated text parts (joined eagerly), the three tracking variables,
and the session itself (mutated through `get_speaker_profile`). -/
structure PlainState where
  parts : String
  current_speaker : Option Nat
  current_language : Option String
  current_is_translation : Bool
  session : Session
deriving DecidableEq

/-- The body of the `for token in self.final_tokens` loop of
`Session.render_plain_text`. -/
def plainStep (st : PlainState) (token : Token) : PlainState :=
  let is_translation := token.translation_status == some "translation"
  if is_translation ∧ token.source_language = some st.session.target_language then
    st
  else
    let st1 :=
      match token.speaker with
      | some sp =>
        if some sp ≠ st.current_speaker then
          let withBreak := if st.current_speaker ≠ none then st.parts ++ "\n\n" else st.parts
          let pr := st.session.get_speaker_profile sp
          { st with
            parts := withBreak ++ pr.1.get_label ++ ":"
            current_speaker := some sp
            current_language := none
            current_is_translation := false
            session := pr.2 }
        else st
      | none => st
    let lang_changed := token.language ≠ none ∧ token.language ≠ st1.current_language
    let translation_changed := is_translation ≠ st1.current_is_translation
    if lang_changed ∨ translation_changed then
      let marker :=
        if is_translation then "\n  ↳ [" ++ optStr token.language ++ "] "
        else "\n[" ++ optStr token.language ++ "] "
      { st1 with
        parts := st1.parts ++ marker ++ pyLstrip token.text
        current_language := token.language
        current_is_translation := is_translation }
    else
      { st1 with parts := st1.parts ++ token.text }

/-- The full fold of `Session.render_plain_text` over an explicit token
list (the source iterates over `self.final_tokens`). -/
def plainFold (s : Session) (tokens : List Token) : PlainState :=
  tokens.foldl plainStep
    { parts := "", current_speaker := none, current_language := none
      current_is_translation := false, session := s }

/-- `Session.render_plain_text` on an explicit token list: the joined
parts are stripped at the end (`"".join(text_parts).strip()`). -/
def plainRenderList (s : Session) (tokens : List Token) : String × Session :=
  let st := plainFold s tokens
  (pyStrip st.parts, st.session)

/-- `Session.render_plain_text`. -/
def Session.render_plain_text (s : Session) : String × Session :=
  plainRenderList s s.final_tokens

/-- Decimal digits of `n`, least significant first, as written by
Python `str(int)` via JSON for the speaker-profile keys (`str(0) = "0"`). -/
def natDigitsRev (n : Nat) : List Nat :=
  if n = 0 then [0] else Nat.digits 10 n

/-- The character for one decimal digit. -/
def digitChar10 (d : Nat) : Char :=
  Char.ofNat (48 + d)

/-- JSON's serialization of an integer dict key: the decimal string. -/
def encodeNatKey (n : Nat) : String :=
  String.mk (((natDigitsRev n).reverse).map digitChar10)

/-- Python `int(s)` on a string key, as `Option`: digits-only strings
parse, anything else raises `ValueError` (modelled as `none`). -/
def decodeNatKey (s : String) : Option Nat :=
  if s.data ≠ [] ∧ s.data.all (fun c => c.isDigit) then
    some (s.data.foldl (fun a c => a * 10 + (c.toNat - 48)) 0)
  else none

/-- The parsed JSON object of the state file, with exactly the keys
`Session._load_state` reads; a missing key is `none`.  (The `updated`
timestamp written by `save_state` is never read back and is omitted.) -/
structure RawState where
  name : String := ""
  source_languages : Option (List String) := none
  target_language : Option String := none
  segment_count : Option Nat := none
  tokens : Option (List Token) := none
  speaker_profiles : Option (List (String × ProfileDict)) := none
deriving DecidableEq

/-- Contents of the state file: either text that fails `json.load`, or a
parsed object. -/
inductive StateContent
  | malformed
  | parsed (st : RawState)
deriving DecidableEq

/-- `Session.save_state`: the JSON object written to the state file.
`json.dump` turns the integer profile keys into decimal strings. -/
def Session.save_state (s : Session) : RawState :=
  { name := s.name
    source_languages := some s.source_languages
    target_language := some s.target_language
    segment_count := some s.segment_count
    tokens := some s.final_tokens
    speaker_profiles :=
      some (s.speaker_profiles.map (fun kp => (encodeNatKey kp.1, kp.2.to_dict))) }

/-- The `for sid, profile_data in state.get("speaker_profiles", {}).items()`
loop: insert profiles one at a time; `int(sid)` raising `ValueError`
aborts the loop (second component `false`), keeping what was already
inserted — exactly the partial application the `except` clause allows. -/
def loadProfilesLoop :
    List (Nat × SpeakerProfile) → List (String × ProfileDict) →
    List (Nat × SpeakerProfile) × Bool
  | m, [] => (m, true)
  | m, (sid, data) :: rest =>
    match decodeNatKey sid with
    | none => (m, false)
    | some k => loadProfilesLoop (dictInsert m k (SpeakerProfile.from_dict k data)) rest

/-- The `try` body of `Session._load_state` on a parsed state object:
assignments happen in source order, so a failure in the profile loop
leaves the earlier assignments in place and `_was_resumed` unset. -/
def Session.applyState (self : Session) (st : RawState) : Session :=
  let s1 := { self with
    segment_count := st.segment_count.getD 0
    final_tokens := st.tokens.getD [] }
  let s2 :=
    match st.source_languages, st.target_language with
    | some src, some tgt => { s1 with source_languages := src, target_language := tgt }
    | _, _ => s1
  let lp := loadProfilesLoop s2.speaker_profiles (st.speaker_profiles.getD [])
  let s3 := { s2 with speaker_profiles := lp.1 }
  if lp.2 then { s3 with was_resumed := true } else s3

/-- `Session._load_state`: missing file or a `json.JSONDecodeError` leave
the session as constructed; a parsed object is applied field by field. -/
def Session.load_state (self : Session) (file : Option StateContent) : Session :=
  match file with
  | none => self
  | some StateContent.malformed => self
  | some (StateContent.parsed st) => self.applyState st

/-- `Session.__init__`: initialize all fields empty, then `_load_state`
(with `file` the contents of `session_state.json`, if it exists). -/
def Session.init (name : String) (source_languages : List String)
    (target_language : String) (file : Option StateContent) : Session :=
  Session.load_state
    { name := name
      source_languages := source_languages
      target_language := target_language
      speaker_profiles := []
      final_tokens := []
      segment_count := 0
      audio_frames := []
      was_resumed := false }
    file

/-- Constructing a fresh `Session` over the directory whose state file
holds exactly what `save_state` wrote for `s`. -/
def reload (s : Session) (name2 : String) (sl : List String) (tl : String) : Session :=
  Session.init name2 sl tl (some (StateContent.parsed s.save_state))

/-- The files written by one `Session.save_segment` call
(`session.py` lines 181-217): the structured JSON record, the plain-text
transcript, the joined audio bytes (only if any frames are buffered;
WAV/MP3 container details are not modelled), and the rewritten state. -/
structure SegmentFiles where
  json_tokens : List Token
  json_profiles : List (Nat × (String × List (String × Nat)))
  txt : String
  audio_bytes : Option (List Nat)
  state : RawState
deriving DecidableEq

/-- `Session.save_segment`: increment the counter, snapshot the JSON
record, render and write the plain-text transcript (which mutates the
session through `get_speaker_profile`), write the buffered audio if any,
then `save_state`.  Nothing clears `audio_frames`. -/
def Session.save_segment (s : Session) : Session × SegmentFiles :=
  let s0 := { s with segment_count := s.segment_count + 1 }
  let jsonProfiles :=
    s0.speaker_profiles.map (fun kp => (kp.1, (kp.2.get_label, kp.2.language_counts)))
  let rp := s0.render_plain_text
  let s1 := rp.2
  let audioOut := if s1.audio_frames ≠ [] then some s1.audio_frames.flatten else none
  (s1,
    { json_tokens := s0.final_tokens
      json_profiles := jsonProfiles
      txt := rp.1
      audio_bytes := audioOut
      state := s1.save_state })

/-- `languages.py`: `SONIOX_LANGUAGES`, keeping the `flag` field the UI
reads (the `name` field is only used by the out-of-scope selector UI). -/
def SONIOX_LANGUAGES : List (String × String) :=
  [("ar", "🇸🇦"), ("eu", "🪨"), ("bs", "🇧🇦"), ("bg", "🇧🇬"), ("ca", "🐈"),
   ("zh", "🇨🇳"), ("hr", "🇭🇷"), ("cs", "🇨🇿"), ("da", "🇩🇰"), ("nl", "🇳🇱"),
   ("en", "🇺🇸"), ("et", "🇪🇪"), ("fi", "🇫🇮"), ("fr", "🇫🇷"), ("gl", "🐟"),
   ("de", "🇩🇪"), ("el", "🇬🇷"), ("gu", "🇮🇳"), ("he", "🇮🇱"), ("hi", "🇮🇳"),
   ("hu", "🇭🇺"), ("id", "🇮🇩"), ("it", "🇮🇹"), ("ja", "🇯🇵"), ("ko", "🇰🇷"),
   ("lv", "🇱🇻"), ("lt", "🇱🇹"), ("mk", "🇲🇰"), ("ms", "🇲🇾"), ("ml", "🇮🇳"),
   ("mr", "🇮🇳"), ("no", "🇳🇴"), ("fa", "🇮🇷"), ("pl", "🇵🇱"), ("pt", "🇵🇹"),
   ("pa", "🇮🇳"), ("ro", "🇷🇴"), ("ru", "🇷🇺"), ("sr", "🇷🇸"), ("sk", "🇸🇰"),
   ("sl", "🇸🇮"), ("es", "🇪🇸"), ("sv", "🇸🇪"), ("tl", "🇵🇭"), ("ta", "🇮🇳"),
   ("te", "🇮🇳"), ("th", "🇹🇭"), ("tr", "🇹🇷"), ("uk", "🇺🇦"), ("ur", "🇵🇰"),
   ("vi", "🇻🇳")]

/-- `languages.get_language_flag`: flag emoji for a code, globe fallback. -/
def get_language_flag (code : String) : String :=
  match dictGet SONIOX_LANGUAGES code with
  | some flag => flag
  | none => "🌐"

/-- `ui.py`: `LANGUAGE_COLORS`. -/
def LANGUAGE_COLORS : List (String × String) :=
  [("en", "#b0b0b0"),
   ("de", "#4682b4"), ("nl", "#7ec8e3"), ("da", "#a8c8dc"), ("no", "#5cacee"),
   ("sv", "#b8d4e8"),
   ("es", "#ffd700"), ("fr", "#ff6b6b"), ("it", "#ffaa5e"), ("pt", "#e8b923"),
   ("ro", "#db7093"), ("ca", "#ff8c42"), ("gl", "#c9a227"),
   ("ru", "#9400d3"), ("pl", "#8a2be2"), ("cs", "#7b68ee"), ("sk", "#9370db"),
   ("uk", "#ba55d3"),
   ("bg", "#ff1493"), ("sr", "#da70d6"), ("hr", "#ff69b4"), ("bs", "#db7093"),
   ("sl", "#dda0dd"), ("mk", "#ee82ee"),
   ("lt", "#00ced1"), ("lv", "#20b2aa"), ("et", "#48d1cc"), ("fi", "#66cdaa"),
   ("hu", "#40e0d0"),
   ("el", "#2e8b57"), ("eu", "#ffea00"),
   ("ar", "#4169e1"), ("he", "#6a5acd"), ("fa", "#008b8b"), ("tr", "#1e90ff"),
   ("ur", "#5f9ea0"),
   ("hi", "#ff6347"), ("gu", "#ff8c00"), ("mr", "#ffa07a"), ("pa", "#f08080"),
   ("ta", "#ff7256"), ("te", "#e9967a"), ("ml", "#ff69b4"),
   ("zh", "#dc143c"), ("ja", "#ff4500"), ("ko", "#c71585"),
   ("vi", "#32cd32"), ("th", "#98fb98"), ("id", "#3cb371"), ("ms", "#00fa9a"),
   ("tl", "#7fff00")]

/-- `ui.py`: `DEFAULT_LANGUAGE_COLOR`. -/
def DEFAULT_LANGUAGE_COLOR : String := "#d4af37"

/-- `ui.py`: `SPEAKER_STYLES`, emoji and color pairs. -/
def SPEAKER_STYLES : List (String × String) :=
  [("🎄", "#98fb98"), ("🎅", "#ff6b6b"), ("✨", "#ffd700"), ("🎁", "#ff69b4"),
   ("🔔", "#ffb347"), ("🕯️", "#dda0dd"), ("🧦", "#87ceeb"), ("🍪", "#deb887"),
   ("☃️", "#e0ffff"), ("❄️", "#b0e0e6"), ("🦌", "#cd853f"), ("👵", "#f0e68c"),
   ("🎀", "#ffb6c1"), ("🧣", "#20b2aa")]

/-- `ui.py`: display constants. -/
def LIVE_VIEW_LINES : Nat := 24

/-- `ui.py`: scroll page size. -/
def SCROLL_PAGE_SIZE : Nat := 20

/-- `LiveTranscriptUI._get_speaker_style`: `SPEAKER_STYLES[sid % len]`. -/
def get_speaker_style (speaker_id : Nat) : String × String :=
  SPEAKER_STYLES.getD (speaker_id % SPEAKER_STYLES.length) ("", "")

/-- `LiveTranscriptUI._get_language_color`: the target language is always
white; unknown languages fall back to the gold default. -/
def get_language_color (target_language : String) (language : String) : String :=
  if language = target_language then "white"
  else (dictGet LANGUAGE_COLORS language).getD DEFAULT_LANGUAGE_COLOR

/-- `LiveTranscriptUI._get_language_flag`: text codes for ca/eu/gl, else
the flag from the languages module. -/
def ui_language_flag (language : String) : String :=
  if language = "ca" then "[CAT]"
  else if language = "eu" then "[BAS]"
  else if language = "gl" then "[GAL]"
  else get_language_flag language

/-- `LiveTranscriptUI._clean_display_text`: strip internal end markers. -/
def clean_display_text (text : String) : String :=
  pyReplace (pyReplace text "<end>" "") "<END>" ""

/-- One styled segment of a Rich `Text` object: `Text.append(str, style)`
with `style = ""` for an unstyled append. -/
structure Span where
  content : String
  style : String
deriving DecidableEq

/-- `LiveTranscriptUI._render_speaker_header`: emoji plus styled label;
`get_speaker_profile` may create the profile, so the session is threaded. -/
def render_speaker_header (text : List Span) (session : Session) (speaker : Nat) :
    List Span × Session :=
  let sty := get_speaker_style speaker
  let pr := session.get_speaker_profile speaker
  (text ++ [Span.mk (sty.1 ++ " " ++ pr.1.get_label ++ ": ") ("bold " ++ sty.2)], pr.2)

/-- `LiveTranscriptUI._flush_buffers_with_flag`: emit one run. -/
def flush_buffers_with_flag (target_language : String) (text : List Span)
    (original translation : String) (lang : Option String)
    (is_final : Bool) (show_flag : Bool) : List Span :=
  let original := clean_display_text original
  let translation := clean_display_text translation
  if original = "" ∧ translation = "" then text
  else
    let lang_color :=
      if langTruthy lang then get_language_color target_language (lang.getD "")
      else DEFAULT_LANGUAGE_COLOR
    if is_final then
      let t1 := if original ≠ "" then text ++ [Span.mk original lang_color] else text
      let t2 :=
        if show_flag ∧ langTruthy lang then
          t1 ++ [Span.mk (" " ++ ui_language_flag (lang.getD "")) "dim"]
        else t1
      if translation ≠ "" then
        t2 ++ [Span.mk " (" "dim", Span.mk (pyStrip translation) "white", Span.mk ")" "dim"]
      else t2
    else
      let t1 :=
        if original ≠ "" then text ++ [Span.mk original ("dim italic " ++ lang_color)]
        else text
      if translation ≠ "" then
        t1 ++ [Span.mk " (" "dim", Span.mk (pyStrip translation) "dim italic white",
               Span.mk ")" "dim"]
      else t1

/-- Fold state of `LiveTranscriptUI._render_transcript`
(`ui.py` lines 401-489). -/
structure RichState where
  text : List Span
  current_speaker : Option Nat
  original_buffer : String
  translation_buffer : String
  current_lang : Option String
  buffer_is_final : Bool
  should_show_flag : Bool
  session : Session
deriving DecidableEq

/-- The body of the `for token in all_tokens` loop of
`_render_transcript`. -/
def richStep (st : RichState) (token : Token) : RichState :=
  let is_translation := token.translation_status == some "translation"
  let is_final := token.is_final.getD true
  if is_translation ∧ token.source_language = some st.session.target_language then
    st
  else
    let stp :=
      match token.speaker with
      | some sp =>
        if some sp ≠ st.current_speaker then
          let t1 :=
            if st.original_buffer ≠ "" ∨ st.translation_buffer ≠ "" then
              flush_buffers_with_flag st.session.target_language st.text
                st.original_buffer st.translation_buffer st.current_lang
                st.buffer_is_final st.should_show_flag
            else st.text
          let t2 := if st.current_speaker ≠ none then t1 ++ [Span.mk "\n\n" ""] else t1
          let hr := render_speaker_header t2 st.session sp
          { st with
            text := hr.1
            session := hr.2
            original_buffer := ""
            translation_buffer := ""
            buffer_is_final := true
            current_speaker := some sp
            should_show_flag := true
            current_lang := token.language }
        else st
      | none => st
    let tokText :=
      match token.speaker with
      | some sp => if some sp ≠ st.current_speaker then pyLstrip token.text else token.text
      | none => token.text
    let st2 := if is_final then stp else { stp with buffer_is_final := false }
    if is_translation then
      { st2 with translation_buffer := st2.translation_buffer ++ tokText }
    else
      let st3 :=
        if langTruthy token.language ∧ langTruthy st2.current_lang ∧
            token.language ≠ st2.current_lang then
          { st2 with
            text := flush_buffers_with_flag st2.session.target_language st2.text
              st2.original_buffer st2.translation_buffer st2.current_lang
              st2.buffer_is_final true
            original_buffer := ""
            translation_buffer := ""
            buffer_is_final := is_final
            should_show_flag := true }
        else if st2.translation_buffer ≠ "" then
          { st2 with
            text := flush_buffers_with_flag st2.session.target_language st2.text
              st2.original_buffer st2.translation_buffer st2.current_lang
              st2.buffer_is_final st2.should_show_flag
            original_buffer := ""
            translation_buffer := ""
            buffer_is_final := is_final
            should_show_flag := false }
        else st2
      { st3 with
        original_buffer := st3.original_buffer ++ tokText
        current_lang := token.language }

/-- The full `_render_transcript` fold over an explicit token list. -/
def richFold (s : Session) (tokens : List Token) : RichState :=
  tokens.foldl richStep
    { text := [], current_speaker := none, original_buffer := ""
      translation_buffer := "", current_lang := none, buffer_is_final := true
      should_show_flag := false, session := s }

/-- `_render_transcript` on an explicit token list: fold, then the final
flush of any remaining buffered content. -/
def richRenderList (s : Session) (tokens : List Token) : List Span × Session :=
  let st := richFold s tokens
  (flush_buffers_with_flag st.session.target_language st.text st.original_buffer
     st.translation_buffer st.current_lang st.buffer_is_final st.should_show_flag,
   st.session)

/-- `LiveTranscriptUI._render_transcript`: the token list is
`self.session.final_tokens + self._non_final_tokens`. -/
def render_transcript (session : Session) (non_final_tokens : List Token) :
    List Span × Session :=
  richRenderList session (session.final_tokens ++ non_final_tokens)

/-- Split a character list at newline characters (for Rich
`Text.split("\n")`, which keeps per-line styling). -/
def splitCharsOnNL : List Char → List (List Char)
  | [] => [[]]
  | c :: rest =>
    let r := splitCharsOnNL rest
    if c = '\n' then [] :: r
    else
      match r with
      | [] => [[c]]
      | l :: ls => (c :: l) :: ls

/-- Append a (possibly empty) fragment of a span to the line being built. -/
def appendSpanToLine (line : List Span) (s : String) (style : String) : List Span :=
  if s = "" then line else line ++ [Span.mk s style]

/-- Distribute the newline-split fragments of one span over completed
lines and the current line. -/
def consumeParts (done : List (List Span)) (current : List Span) (style : String) :
    List String → List (List Span) × List Span
  | [] => (done, current)
  | [p] => (done, appendSpanToLine current p style)
  | p :: ps => consumeParts (done ++ [appendSpanToLine current p style]) [] style ps

/-- Rich `Text.split("\n")` on a span list: the list of styled lines. -/
def textSplit (t : List Span) : List (List Span) :=
  let r := t.foldl
    (fun acc sp =>
      consumeParts acc.1 acc.2 sp.style ((splitCharsOnNL sp.content.data).map String.mk))
    ([], [])
  r.1 ++ [r.2]

/-- The `LiveTranscriptUI` state the scroll view and the run loop touch
(`ui.py` lines 137-168): the session, the latest non-final snapshot, the
scroll-mode fields, the status message slot and the running flag. -/
structure UIState where
  session : Session
  non_final_tokens : List Token
  scroll_mode : Bool
  scroll_offset : Nat
  scroll_lines : List (List Span)
  scroll_total_lines : Nat
  error_message : String
  running : Bool
deriving DecidableEq

/-- `LiveTranscriptUI._prepare_scroll_content`: re-render the transcript
(threading the session, which `_render_transcript` may mutate) and split
it into styled lines. -/
def prepare_scroll_content (ui : UIState) : UIState :=
  let r := render_transcript ui.session ui.non_final_tokens
  let lines := textSplit r.1
  { ui with session := r.2, scroll_lines := lines, scroll_total_lines := lines.length }

/-- `LiveTranscriptUI._enter_scroll_mode`. -/
def enter_scroll_mode (ui : UIState) : UIState :=
  if ui.session.final_tokens = [] then { ui with error_message := "No transcript yet" }
  else
    let ui := { ui with scroll_mode := true }
    let ui := prepare_scroll_content ui
    { ui with scroll_offset := max 0 (ui.scroll_total_lines - SCROLL_PAGE_SIZE) }

/-- `LiveTranscriptUI._exit_scroll_mode`. -/
def exit_scroll_mode (ui : UIState) : UIState :=
  { ui with scroll_mode := false }

/-- `LiveTranscriptUI._scroll_up` (Python `max(0, offset - n)`; `Nat`
subtraction already truncates at zero). -/
def scroll_up (ui : UIState) (n : Nat) : UIState :=
  { ui with scroll_offset := max 0 (ui.scroll_offset - n) }

/-- `LiveTranscriptUI._scroll_down`. -/
def scroll_down (ui : UIState) (n : Nat) : UIState :=
  let max_off := max 0 (ui.scroll_total_lines - SCROLL_PAGE_SIZE)
  { ui with scroll_offset := min max_off (ui.scroll_offset + n) }

/-- `LiveTranscriptUI._scroll_to_top`. -/
def scroll_to_top (ui : UIState) : UIState :=
  { ui with scroll_offset := 0 }

/-- `LiveTranscriptUI._scroll_to_bottom`. -/
def scroll_to_bottom (ui : UIState) : UIState :=
  { ui with scroll_offset := max 0 (ui.scroll_total_lines - SCROLL_PAGE_SIZE) }

/-- `LiveTranscriptUI._handle_scroll_key`. -/
def handle_scroll_key (ui : UIState) (key : String) : UIState :=
  if key = "q" ∨ key = "ESC" ∨ key = "v" then exit_scroll_mode ui
  else if key = "j" ∨ key = "DOWN" then scroll_down ui 1
  else if key = "k" ∨ key = "UP" then scroll_up ui 1
  else if key = "d" ∨ key = "PAGEDOWN" then scroll_down ui (SCROLL_PAGE_SIZE - 2)
  else if key = "u" ∨ key = "PAGEUP" then scroll_up ui (SCROLL_PAGE_SIZE - 2)
  else if key = "g" then scroll_to_top ui
  else if key = "G" then scroll_to_bottom ui
  else ui

/-- `LiveTranscriptUI._handle_live_key`. -/
def handle_live_key (ui : UIState) (key : String) : UIState :=
  if key = "v" then enter_scroll_mode ui
  else if key = "q" then { ui with running := false }
  else ui

/-- `LiveTranscriptUI._handle_key`. -/
def handle_key (ui : UIState) (key : String) : UIState :=
  if ui.scroll_mode then handle_scroll_key ui key else handle_live_key ui key

/-- The state effects of `LiveTranscriptUI._build_display` on one redraw:
in live mode `_render_live_transcript` re-renders the transcript (which
may create speaker profiles); `_render_status_bar` clears a pending
error message after showing it. -/
def build_display_effect (ui : UIState) : UIState :=
  let ui :=
    if ui.scroll_mode then ui
    else { ui with session := (render_transcript ui.session ui.non_final_tokens).2 }
  if ui.error_message ≠ "" then { ui with error_message := "" } else ui

/-- One iteration of the `while` loop of `LiveTranscriptUI.run`
(`ui.py` lines 665-679): drain pending keys, re-prepare the scroll
content whenever scroll mode is active, then rebuild the display. -/
def loop_tick (ui : UIState) (keys : List String) : UIState :=
  let ui := keys.foldl handle_key ui
  let ui := if ui.scroll_mode then prepare_scroll_content ui else ui
  build_display_effect ui

/-- One token processed by `Transcriber._receive_messages` (lines
202-212): tokens with empty text are skipped; the language is resolved
(mutating the speaker profiles) and stamped on the token; final tokens
are appended to the session. -/
def receive_token (ui : UIState) (token : Token) : UIState :=
  if token.text = "" then ui
  else
    let r := resolve_language token ui.session
    let tagged := { token with resolved_language := some r.1 }
    if tagged.is_final.getD false then { ui with session := (r.2).add_token tagged }
    else { ui with session := r.2 }

/-- `LiveTranscriptUI._on_tokens`: the non-final snapshot is replaced
wholesale on every batch. -/
def set_non_final (ui : UIState) (tokens : List Token) : UIState :=
  { ui with non_final_tokens := tokens }

/-- Sum of the per-language counters of a profile
(`sum(language_counts.values())`). -/
def sumCounts (l : List (String × Nat)) : Nat :=
  (l.map Prod.snd).sum

/-- A `defaultdict(int)` read: the counter for a language, 0 if absent. -/
def countOf (l : List (String × Nat)) (lang : String) : Nat :=
  (dictGet l lang).getD 0

/-- The `last_language` recorded for a speaker: `none` when the speaker
has no profile yet or the profile has no last language. -/
def sessionLast (s : Session) (speaker : Nat) : Option String :=
  match dictGet s.speaker_profiles speaker with
  | some p => p.last_language
  | none => none

/-- The count recorded for a speaker and language, 0 when absent. -/
def sessionCount (s : Session) (speaker : Nat) (lang : String) : Nat :=
  match dictGet s.speaker_profiles speaker with
  | some p => countOf p.language_counts lang
  | none => 0

/-- The total sample count recorded for a speaker, 0 when absent. -/
def sessionTotal (s : Session) (speaker : Nat) : Nat :=
  match dictGet s.speaker_profiles speaker with
  | some p => p.total_samples
  | none => 0

/-- Well-formedness of the profile table, maintained by every session
operation: keys are distinct and each profile carries its own key as
`speaker_id`. -/
def profilesWF (l : List (Nat × SpeakerProfile)) : Prop :=
  (l.map Prod.fst).Nodup ∧ ∀ kp ∈ l, (Prod.snd kp).speaker_id = Prod.fst kp

/-- Sessions built through the ingestion operations: a fresh construction
over an empty directory followed by any sequence of `add_token`,
`add_audio_frame` and `resolve_language` calls. -/
inductive Reach : Session → Prop
  | init (name : String) (sl : List String) (tl : String) :
      Reach (Session.init name sl tl none)
  | add_token {s : Session} (t : Token) : Reach s → Reach (s.add_token t)
  | add_audio_frame {s : Session} (f : List Nat) : Reach s → Reach (s.add_audio_frame f)
  | resolve {s : Session} (t : Token) : Reach s → Reach (resolve_language t s).2

/-- An empty session literal used by concrete checks (what
`Session.init name sl tl none` produces). -/
def emptySession (name : String) (sl : List String) (tl : String) : Session :=
  { name := name, source_languages := sl, target_language := tl
    speaker_profiles := [], final_tokens := [], segment_count := 0
    audio_frames := [], was_resumed := false }

/-- A plain original French token. -/
def tokFr : Token :=
  { text := "Bonjour", speaker := some 1, language := some "fr", is_final := some true }

/-- Its English translation token. -/
def tokTr : Token :=
  { text := "Hello", speaker := some 1, language := some "en"
    source_language := some "fr", translation_status := some "translation"
    is_final := some true }

/-- A translation token whose source language equals the session target
(the skip-rule case). -/
def tokSkip : Token :=
  { text := "ignored", speaker := some 1, language := some "en"
    source_language := some "en", translation_status := some "translation"
    is_final := some true }

/-- A corrupt state file: valid JSON, but the speaker-profile key is not
an integer, so `int(sid)` raises `ValueError` mid-load. -/
def rawBad : RawState :=
  { segment_count := some 5
    tokens := some [{ text := "hi" }]
    speaker_profiles := some [("abc", {})] }

/-- A session holding one buffered audio frame. -/
def sAudio : Session :=
  { emptySession "a" ["en"] "en" with audio_frames := [[1, 2, 3]] }

/-- A session with one token from a speaker who has no profile yet. -/
def sNoProfile : Session :=
  { emptySession "p" ["es"] "en" with
    final_tokens := [{ text := "Hola", speaker := some 5, language := some "es" }] }

/-- A session whose speaker 1 has an established Spanish history. -/
def sEs : Session :=
  { emptySession "h" ["es"] "en" with
    speaker_profiles :=
      [(1, { speaker_id := 1, language_counts := [("es", 3)]
             last_language := some "es", total_samples := 3 })] }

/-- A low-confidence French token from speaker 1 (confidence 0.2). -/
def tokLow : Token :=
  { text := "x", speaker := some 1, language := some "fr"
    language_confidence := some (mkRat 1 5) }

/-- A high-confidence French token from speaker 1 (confidence 0.9). -/
def tokHigh : Token :=
  { text := "x", speaker := some 1, language := some "fr"
    language_confidence := some (mkRat 9 10) }

/-- A low-confidence first token from a speaker with no history. -/
def tokFirstLow : Token :=
  { text := "y", speaker := some 7, language := some "pt"
    language_confidence := some (mkRat 3 10) }

/-- The session with the translation pair, target English. -/
def sPair : Session :=
  { emptySession "demo" ["fr"] "en" with final_tokens := [tokFr, tokTr] }

/-- First finalized token shown in the UI example. -/
def tokHello : Token :=
  { text := "Hello", speaker := some 1, language := some "en", is_final := some true }

/-- A later finalized token from a second speaker. -/
def tokWorld : Token :=
  { text := "World", speaker := some 2, language := some "es", is_final := some true }

/-- UI state over a session that already holds one token, live mode. -/
def ui0 : UIState :=
  { session := { emptySession "u" ["en", "es"] "en" with final_tokens := [tokHello] }
    non_final_tokens := [], scroll_mode := false, scroll_offset := 0
    scroll_lines := [], scroll_total_lines := 0, error_message := "", running := true }

/-- The UI after the user presses `v`: scroll mode with its snapshot. -/
def ui1 : UIState := handle_key ui0 "v"

/-- The UI after a new finalized token arrives while scrolling. -/
def ui2 : UIState := receive_token ui1 tokWorld

/-- The UI after the next redraw tick of the run loop. -/
def ui3 : UIState := loop_tick ui2 []

/-- A session reached by one resolved sample and one stored token. -/
def sReached : Session :=
  Session.add_token (resolve_language tokHigh (Session.init "w" ["es"] "en" none)).2 tokFr

/-- Speaker 1's established profile in `sEs`. -/
def pEs : SpeakerProfile :=
  { speaker_id := 1, language_counts := [("es", 3)]
    last_language := some "es", total_samples := 3 }

/-- The single profile entry produced by the `C5` witness run. -/
def kpW : Nat × SpeakerProfile :=
  (1, { speaker_id := 1, language_counts := [("fr", 1)]
        last_language := some "fr", total_samples := 1 })

/-- `s'` relates to `s` by the only mutation rendering can make: every
field but `speaker_profiles` is unchanged, and the profile table has only
been extended at the end (existing entries kept in place). -/
def profExt (s s' : Session) : Prop :=
  s'.name = s.name ∧ s'.source_languages = s.source_languages ∧
  s'.target_language = s.target_language ∧ s'.final_tokens = s.final_tokens ∧
  s'.segment_count = s.segment_count ∧ s'.audio_frames = s.audio_frames ∧
  s'.was_resumed = s.was_resumed ∧
  ∃ ext, s'.speaker_profiles = s.speaker_profiles ++ ext

theorem profExt_refl (s : Session) : profExt s s :=
  ⟨rfl, rfl, rfl, rfl, rfl, rfl, rfl, [], by simp⟩

theorem profExt_trans {s1 s2 s3 : Session} (h1 : profExt s1 s2) (h2 : profExt s2 s3) :
    profExt s1 s3 := by
  obtain ⟨a1, a2, a3, a4, a5, a6, a7, e1, he1⟩ := h1
  obtain ⟨b1, b2, b3, b4, b5, b6, b7, e2, he2⟩ := h2
  refine ⟨?_, ?_, ?_, ?_, ?_, ?_, ?_, e1 ++ e2, ?_⟩ <;>
    simp_all [List.append_assoc]

theorem dictGet_dictInsert_self {κ α : Type} [DecidableEq κ]
    (m : List (κ × α)) (k : κ) (v : α) :
    dictGet (dictInsert m k v) k = some v := by
  induction m with
  | nil => simp [dictGet, dictInsert]
  | cons kv rest ih =>
    obtain ⟨k', v'⟩ := kv
    by_cases h : k' = k
    · simp [dictInsert, dictGet, h]
    · simp [dictInsert, dictGet, h, ih]

theorem mem_dictInsert {κ α : Type} [DecidableEq κ]
    {m : List (κ × α)} {k : κ} {v : α} {kp : κ × α}
    (h : kp ∈ dictInsert m k v) : kp = (k, v) ∨ kp ∈ m := by
  induction m with
  | nil => simp [dictInsert] at h; simp [h]
  | cons kv rest ih =>
    obtain ⟨k', v'⟩ := kv
    by_cases hk : k' = k
    · simp [dictInsert, hk] at h
      rcases h with h | h
      · exact Or.inl h
      · exact Or.inr (List.mem_cons_of_mem _ h)
    · simp [dictInsert, hk] at h
      rcases h with h | h
      · exact Or.inr (by simp [h])
      · rcases ih h with h' | h'
        · exact Or.inl h'
        · exact Or.inr (List.mem_cons_of_mem _ h')

theorem dictGet_eq_none_iff {κ α : Type} [DecidableEq κ] {m : List (κ × α)} {k : κ} :
    dictGet m k = none ↔ k ∉ m.map Prod.fst := by
  induction m with
  | nil => simp [dictGet]
  | cons kv rest ih =>
    obtain ⟨k', v'⟩ := kv
    by_cases h : k' = k
    · simp [dictGet, h]
    · simp [dictGet, h, ih, Ne.symm h]

theorem dictGet_mem {κ α : Type} [DecidableEq κ] {m : List (κ × α)} {k : κ} {v : α}
    (h : dictGet m k = some v) : (k, v) ∈ m := by
  induction m with
  | nil => simp [dictGet] at h
  | cons kv rest ih =>
    obtain ⟨k', v'⟩ := kv
    by_cases hk : k' = k
    · simp [dictGet, hk] at h
      simp [hk, h]
    · simp [dictGet, hk] at h
      exact List.mem_cons_of_mem _ (ih h)

theorem dictInsert_of_not_mem {κ α : Type} [DecidableEq κ]
    {m : List (κ × α)} {k : κ} (v : α) (h : k ∉ m.map Prod.fst) :
    dictInsert m k v = m ++ [(k, v)] := by
  induction m with
  | nil => simp [dictInsert]
  | cons kv rest ih =>
    obtain ⟨k', v'⟩ := kv
    simp at h
    simp [dictInsert, Ne.symm h.1, ih (by simpa using h.2)]

theorem keys_dictInsert_of_mem {κ α : Type} [DecidableEq κ]
    {m : List (κ × α)} {k : κ} (v : α) (h : k ∈ m.map Prod.fst) :
    (dictInsert m k v).map Prod.fst = m.map Prod.fst := by
  induction m with
  | nil => simp at h
  | cons kv rest ih =>
    obtain ⟨k', v'⟩ := kv
    by_cases hk : k' = k
    · simp [dictInsert, hk]
    · simp [Ne.symm hk] at h
      simp [dictInsert, hk, ih (by simpa using h)]

theorem gsp_of_some (s : Session) (sid : Nat) (p : SpeakerProfile)
    (h : dictGet s.speaker_profiles sid = some p) :
    s.get_speaker_profile sid = (p, s) := by
  simp [Session.get_speaker_profile, h]

theorem gsp_of_none (s : Session) (sid : Nat)
    (h : dictGet s.speaker_profiles sid = none) :
    s.get_speaker_profile sid =
      (SpeakerProfile.fresh sid,
       { s with speaker_profiles := s.speaker_profiles ++ [(sid, SpeakerProfile.fresh sid)] }) := by
  simp [Session.get_speaker_profile, h]

theorem profExt_gsp (s : Session) (sid : Nat) :
    profExt s ((s.get_speaker_profile sid).2) := by
  cases h : dictGet s.speaker_profiles sid with
  | some p =>
    rw [gsp_of_some s sid p h]
    exact profExt_refl s
  | none =>
    rw [gsp_of_none s sid h]
    exact ⟨rfl, rfl, rfl, rfl, rfl, rfl, rfl, [(sid, SpeakerProfile.fresh sid)], rfl⟩

theorem plainStep_profExt (st : PlainState) (t : Token) :
    profExt st.session (plainStep st t).session := by
  unfold plainStep
  dsimp only
  repeat' first
    | exact profExt_refl _
    | exact profExt_gsp _ _
    | (split <;> try dsimp only)

theorem profExt_rsh (txt : List Span) (s : Session) (sp : Nat) :
    profExt s (render_speaker_header txt s sp).2 := by
  unfold render_speaker_header
  dsimp only
  exact profExt_gsp s sp

theorem richStep_profExt (st : RichState) (t : Token) :
    profExt st.session (richStep st t).session := by
  unfold richStep
  dsimp only
  repeat' first
    | exact profExt_refl _
    | exact profExt_gsp _ _
    | exact profExt_rsh _ _ _
    | (split <;> try dsimp only)

theorem foldl_plainStep_profExt (ts : List Token) (st : PlainState) :
    profExt st.session (ts.foldl plainStep st).session := by
  induction ts generalizing st with
  | nil => exact profExt_refl _
  | cons t ts ih =>
    simp only [List.foldl_cons]
    exact profExt_trans (plainStep_profExt st t) (ih (plainStep st t))

theorem foldl_richStep_profExt (ts : List Token) (st : RichState) :
    profExt st.session (ts.foldl richStep st).session := by
  induction ts generalizing st with
  | nil => exact profExt_refl _
  | cons t ts ih =>
    simp only [List.foldl_cons]
    exact profExt_trans (richStep_profExt st t) (ih (richStep st t))

theorem plainFold_profExt (s : Session) (ts : List Token) :
    profExt s (plainFold s ts).session :=
  foldl_plainStep_profExt ts _

theorem richFold_profExt (s : Session) (ts : List Token) :
    profExt s (richFold s ts).session :=
  foldl_richStep_profExt ts _

theorem plainStep_skip (st : PlainState) (t : Token)
    (h1 : t.translation_status = some "translation")
    (h2 : t.source_language = some st.session.target_language) :
    plainStep st t = st := by
  unfold plainStep
  simp [h1, h2]

theorem richStep_skip (st : RichState) (t : Token)
    (h1 : t.translation_status = some "translation")
    (h2 : t.source_language = some st.session.target_language) :
    richStep st t = st := by
  unfold richStep
  simp [h1, h2]

/-- C6: a translation token whose source language equals the session's
target language contributes nothing: inserted at any position, it leaves
the whole fold state of both renderers (plain-text and styled) and hence
their rendered output unchanged — no text, no speaker header, no flush,
no language change. -/
theorem skip_rule_token_contributes_nothing (s : Session) (pre post : List Token)
    (t : Token) (h1 : t.translation_status = some "translation")
    (h2 : t.source_language = some s.target_language) :
    plainFold s (pre ++ t :: post) = plainFold s (pre ++ post) ∧
    richFold s (pre ++ t :: post) = richFold s (pre ++ post) ∧
    plainRenderList s (pre ++ t :: post) = plainRenderList s (pre ++ post) ∧
    richRenderList s (pre ++ t :: post) = richRenderList s (pre ++ post) := by
  have hp : plainFold s (pre ++ t :: post) = plainFold s (pre ++ post) := by
    unfold plainFold
    rw [List.foldl_append, List.foldl_append, List.foldl_cons]
    congr 1
    apply plainStep_skip _ _ h1
    have htl := (foldl_plainStep_profExt pre
      { parts := "", current_speaker := none, current_language := none
        current_is_translation := false, session := s }).2.2.1
    dsimp only at htl
    rw [htl]
    exact h2
  have hr : richFold s (pre ++ t :: post) = richFold s (pre ++ post) := by
    unfold richFold
    rw [List.foldl_append, List.foldl_append, List.foldl_cons]
    congr 1
    apply richStep_skip _ _ h1
    have htl := (foldl_richStep_profExt pre
      { text := [], current_speaker := none, original_buffer := ""
        translation_buffer := "", current_lang := none, buffer_is_final := true
        should_show_flag := false, session := s }).2.2.1
    dsimp only at htl
    rw [htl]
    exact h2
  refine ⟨hp, hr, ?_, ?_⟩
  · simp only [plainRenderList, hp]
  · simp only [richRenderList, hr]

/-- C6 witness: a concrete skipped token between two rendered tokens. -/
theorem skip_rule_token_contributes_nothing_witness :
    plainFold sPair ([tokFr] ++ tokSkip :: [tokTr]) =
      plainFold sPair ([tokFr] ++ [tokTr]) ∧
    richFold sPair ([tokFr] ++ tokSkip :: [tokTr]) =
      richFold sPair ([tokFr] ++ [tokTr]) ∧
    plainRenderList sPair ([tokFr] ++ tokSkip :: [tokTr]) =
      plainRenderList sPair ([tokFr] ++ [tokTr]) ∧
    richRenderList sPair ([tokFr] ++ tokSkip :: [tokTr]) =
      richRenderList sPair ([tokFr] ++ [tokTr]) :=
  skip_rule_token_contributes_nothing sPair [tokFr] [tokTr] tokSkip rfl rfl

/-- C3 amended: rendering (plain-text or styled, over any non-final
snapshot) leaves every Session field unchanged except that
`get_speaker_profile` may append fresh profiles for speaker ids that had
none — in particular `final_tokens`, `segment_count` and the language
configuration are untouched, and existing profiles stay in place. -/
theorem render_mutates_only_by_appending_profiles (s : Session) :
    profExt s (Session.render_plain_text s).2 ∧
    ∀ nf : List Token, profExt s (render_transcript s nf).2 := by
  constructor
  · have h := plainFold_profExt s s.final_tokens
    simpa [Session.render_plain_text, plainRenderList] using h
  · intro nf
    have h := richFold_profExt s (s.final_tokens ++ nf)
    simpa [render_transcript, richRenderList] using h

/-- C3 counterexample: rendering a token whose speaker has no profile
does create one — both renderers add a fresh profile for speaker 5. -/
theorem render_creates_missing_speaker_profile :
    sNoProfile.speaker_profiles = [] ∧
    (Session.render_plain_text sNoProfile).2.speaker_profiles =
      [(5, SpeakerProfile.fresh 5)] ∧
    (render_transcript sNoProfile []).2.speaker_profiles =
      [(5, SpeakerProfile.fresh 5)] :=
  ⟨rfl, by decide, by decide⟩

theorem render_plain_text_audio_frames (u : Session) :
    (Session.render_plain_text u).2.audio_frames = u.audio_frames :=
  (plainFold_profExt u u.final_tokens).2.2.2.2.2.1

/-- C2 amended: `save_segment` never clears (nor otherwise changes) the
in-memory `audio_frames` buffer, so a second `save_segment` with no new
frames writes the identical audio bytes again instead of writing none —
segment audio is a cumulative snapshot, like the transcript. -/
theorem save_segment_preserves_audio_frames (s : Session) :
    (Session.save_segment s).1.audio_frames = s.audio_frames ∧
    ((Session.save_segment s).1.save_segment).2.audio_bytes =
      (Session.save_segment s).2.audio_bytes := by
  have frames : ∀ u : Session, (Session.save_segment u).1.audio_frames = u.audio_frames := by
    intro u
    show (Session.render_plain_text
      { u with segment_count := u.segment_count + 1 }).2.audio_frames = u.audio_frames
    rw [render_plain_text_audio_frames]
  have bytes : ∀ u : Session, (Session.save_segment u).2.audio_bytes =
      (if u.audio_frames ≠ [] then some u.audio_frames.flatten else none) := by
    intro u
    show (if (Session.render_plain_text
        { u with segment_count := u.segment_count + 1 }).2.audio_frames ≠ [] then
          some (Session.render_plain_text
            { u with segment_count := u.segment_count + 1 }).2.audio_frames.flatten
        else none) = _
    rw [render_plain_text_audio_frames]
  refine ⟨frames s, ?_⟩
  rw [bytes, bytes, frames s]

/-- C2 counterexample: after saving a segment with one buffered frame,
the buffer is not empty — the frame is still there. -/
theorem save_segment_leaves_audio_buffer_nonempty :
    sAudio.audio_frames = [[1, 2, 3]] ∧
    (Session.save_segment sAudio).1.audio_frames = [[1, 2, 3]] :=
  ⟨rfl, by decide⟩

/-- C9 counterexample: the plain-text transcript written by
`save_segment` for an original/translation pair contains no parenthesis
at all; the translation is rendered on its own indented arrow line. -/
theorem saved_txt_translation_not_parenthesized :
    (Session.save_segment sPair).2.txt = "Speaker 1:\n[fr] Bonjour\n  ↳ [en] Hello" ∧
    ((Session.save_segment sPair).2.txt.data.contains '(') = false :=
  ⟨by decide, by decide⟩

/-- C9 amended: the `.txt` file written by `save_segment` is exactly the
output of `Session.render_plain_text`, a line-oriented rendering that
marks a translation with an indented `↳ [lang]` line under its original
rather than parenthesizing it inline with the styled assembler's pairing
logic. -/
theorem saved_txt_uses_arrow_line_rendering :
    (∀ s : Session, (Session.save_segment s).2.txt =
      (Session.render_plain_text { s with segment_count := s.segment_count + 1 }).1) ∧
    (Session.render_plain_text sPair).1 = "Speaker 1:\n[fr] Bonjour\n  ↳ [en] Hello" :=
  ⟨fun _ => rfl, by decide⟩

/-- C1: loading a state file that parses as JSON but whose
speaker-profile table has a non-integer key applies `segment_count` and
`tokens` from the corrupt file before the `ValueError` aborts the load,
leaving a partially-applied session with `was_resumed = false` — the
claimed (and commented) clean fresh start does not happen. -/
theorem load_state_partial_application_on_bad_speaker_key :
    (Session.init "s" ["en"] "fr" (some (StateContent.parsed rawBad))).segment_count = 5 ∧
    (Session.init "s" ["en"] "fr" (some (StateContent.parsed rawBad))).final_tokens =
      [{ text := "hi" }] ∧
    (Session.init "s" ["en"] "fr" (some (StateContent.parsed rawBad))).was_resumed = false ∧
    (Session.init "s" ["en"] "fr" (some (StateContent.parsed rawBad))).speaker_profiles = [] :=
  ⟨by decide, by decide, by decide, by decide⟩

theorem build_display_effect_scroll_fields (v : UIState) :
    (build_display_effect v).scroll_lines = v.scroll_lines ∧
    (build_display_effect v).scroll_offset = v.scroll_offset ∧
    (build_display_effect v).scroll_total_lines = v.scroll_total_lines := by
  unfold build_display_effect
  dsimp only
  split <;> split <;> simp

/-- C7 amended: while scroll mode is active, every redraw tick of the run
loop re-derives the scroll lines from the current session and non-final
snapshot (`_prepare_scroll_content` is called on every iteration), so
the viewed lines do change as tokens arrive; only the scroll offset is
left alone by ticks and by incoming tokens. -/
theorem scroll_tick_recomputes_lines_preserves_offset (ui : UIState)
    (h : ui.scroll_mode = true) :
    (loop_tick ui []).scroll_lines =
      textSplit (render_transcript ui.session ui.non_final_tokens).1 ∧
    (loop_tick ui []).scroll_offset = ui.scroll_offset ∧
    ∀ t : Token, (receive_token ui t).scroll_lines = ui.scroll_lines ∧
      (receive_token ui t).scroll_offset = ui.scroll_offset := by
  have h0 : loop_tick ui [] = build_display_effect (prepare_scroll_content ui) := by
    simp [loop_tick, h]
  refine ⟨?_, ?_, ?_⟩
  · rw [h0, (build_display_effect_scroll_fields _).1]
    rfl
  · rw [h0, (build_display_effect_scroll_fields _).2.1]
    rfl
  · intro t
    unfold receive_token
    dsimp only
    split
    · exact ⟨rfl, rfl⟩
    · split <;> exact ⟨rfl, rfl⟩

/-- C7 amended witness: the concrete scroll-mode state `ui1`. -/
theorem scroll_tick_recomputes_lines_preserves_offset_witness :
    ui1.scroll_mode = true ∧
    (loop_tick ui1 []).scroll_lines =
      textSplit (render_transcript ui1.session ui1.non_final_tokens).1 ∧
    (loop_tick ui1 []).scroll_offset = ui1.scroll_offset :=
  ⟨by decide, (scroll_tick_recomputes_lines_preserves_offset ui1 (by decide)).1,
   (scroll_tick_recomputes_lines_preserves_offset ui1 (by decide)).2.1⟩

/-- C7 counterexample: entering scroll mode over a one-line transcript
snapshots 1 line; after a finalized token from a second speaker arrives
and the next redraw tick runs — scroll mode still active throughout —
the viewed snapshot has 3 lines.  The snapshot is not immutable while
scroll mode is active. -/
theorem scroll_snapshot_changes_on_tick_after_new_token :
    ui1.scroll_mode = true ∧ ui3.scroll_mode = true ∧
    ui1.scroll_total_lines = 1 ∧ ui3.scroll_total_lines = 3 :=
  ⟨by decide, by decide, by decide, by decide⟩

theorem countOf_bumpCount (l : List (String × Nat)) (lang : String) :
    countOf (bumpCount l lang) lang = countOf l lang + 1 := by
  induction l with
  | nil => simp [bumpCount, countOf, dictGet]
  | cons kv rest ih =>
    obtain ⟨k, v⟩ := kv
    by_cases h : k = lang
    · simp [bumpCount, countOf, dictGet, h]
    · simp [bumpCount, countOf, dictGet, h] at ih ⊢
      exact ih

theorem sumCounts_bumpCount (l : List (String × Nat)) (lang : String) :
    sumCounts (bumpCount l lang) = sumCounts l + 1 := by
  induction l with
  | nil => simp [bumpCount, sumCounts]
  | cons kv rest ih =>
    obtain ⟨k, v⟩ := kv
    by_cases h : k = lang
    · simp [bumpCount, sumCounts, h]
      omega
    · simp [bumpCount, sumCounts, h] at ih ⊢
      omega

theorem add_sample_inv {p : SpeakerProfile}
    (h : p.total_samples = sumCounts p.language_counts) (lang : String) :
    (p.add_sample lang).total_samples = sumCounts (p.add_sample lang).language_counts := by
  simp [SpeakerProfile.add_sample, sumCounts_bumpCount, h]

/-- C4: resolver hysteresis.  With a speaker id present: if confidence is
below the 0.5 threshold and the speaker's profile has a last language,
`resolve_language` returns that last language and leaves the session
(counts, last language, total samples) completely unchanged; if
confidence is not below the threshold and the token carries a language,
it returns that language, increments its count and the total, and sets
the last language to it. -/
theorem resolver_hysteresis (t : Token) (s : Session) (sp : Nat)
    (h : t.speaker = some sp) :
    (∀ p l, dictGet s.speaker_profiles sp = some p → p.last_language = some l →
      t.confD < LANGUAGE_CONFIDENCE_THRESHOLD → resolve_language t s = (l, s)) ∧
    (∀ lg, ¬ t.confD < LANGUAGE_CONFIDENCE_THRESHOLD → t.language = some lg →
      (resolve_language t s).1 = lg ∧
      sessionLast (resolve_language t s).2 sp = some lg ∧
      sessionCount (resolve_language t s).2 sp lg = sessionCount s sp lg + 1 ∧
      sessionTotal (resolve_language t s).2 sp = sessionTotal s sp + 1) := by
  constructor
  · intro p l hget hlast hconf
    unfold resolve_language
    rw [h]
    dsimp only
    rw [gsp_of_some s sp p hget]
    dsimp only
    rw [if_pos ⟨hconf, by rw [hlast]; simp⟩, hlast]
    rfl
  · intro lg hconf hlang
    unfold resolve_language
    rw [h]
    dsimp only
    cases hget : dictGet s.speaker_profiles sp with
    | some p =>
      rw [gsp_of_some s sp p hget]
      dsimp only
      rw [if_neg (fun hc => hconf hc.1), hlang]
      dsimp only
      refine ⟨rfl, ?_, ?_, ?_⟩
      · simp [sessionLast, Session.set_profile, dictGet_dictInsert_self,
          SpeakerProfile.add_sample]
      · simp [sessionCount, Session.set_profile, dictGet_dictInsert_self,
          SpeakerProfile.add_sample, hget, countOf_bumpCount]
      · simp [sessionTotal, Session.set_profile, dictGet_dictInsert_self,
          SpeakerProfile.add_sample, hget]
    | none =>
      rw [gsp_of_none s sp hget]
      dsimp only
      rw [if_neg (fun hc => hc.2 rfl), hlang]
      dsimp only
      refine ⟨rfl, ?_, ?_, ?_⟩
      · simp [sessionLast, Session.set_profile, dictGet_dictInsert_self,
          SpeakerProfile.add_sample]
      · simp [sessionCount, Session.set_profile, dictGet_dictInsert_self,
          SpeakerProfile.add_sample, SpeakerProfile.fresh, hget, countOf_bumpCount,
          countOf, bumpCount, dictGet]
      · simp [sessionTotal, Session.set_profile, dictGet_dictInsert_self,
          SpeakerProfile.add_sample, SpeakerProfile.fresh, hget]

/-- C4 witness: speaker 1 with Spanish history; a 0.2-confidence French
token resolves to Spanish without changes, a 0.9-confidence one resolves
to French and records the sample. -/
theorem resolver_hysteresis_witness :
    resolve_language tokLow sEs = ("es", sEs) ∧
    (resolve_language tokHigh sEs).1 = "fr" ∧
    sessionCount (resolve_language tokHigh sEs).2 1 "fr" = sessionCount sEs 1 "fr" + 1 ∧
    sessionTotal (resolve_language tokHigh sEs).2 1 = sessionTotal sEs 1 + 1 :=
  ⟨(resolver_hysteresis tokLow sEs 1 rfl).1 pEs "es" rfl rfl (by decide),
   ((resolver_hysteresis tokHigh sEs 1 rfl).2 "fr" (by decide) rfl).1,
   ((resolver_hysteresis tokHigh sEs 1 rfl).2 "fr" (by decide) rfl).2.2.1,
   ((resolver_hysteresis tokHigh sEs 1 rfl).2 "fr" (by decide) rfl).2.2.2⟩

/-- C10: when the speaker has no recorded last language (no profile yet,
or an empty one), a low-confidence token with a language is *not*
filtered: `resolve_language` records it as the first sample and returns
it. -/
theorem resolver_first_sample_low_confidence_recorded (t : Token) (s : Session)
    (sp : Nat) (lg : String) (h : t.speaker = some sp) (hlang : t.language = some lg)
    (hconf : t.confD < LANGUAGE_CONFIDENCE_THRESHOLD)
    (hlast : sessionLast s sp = none) :
    (resolve_language t s).1 = lg ∧
    sessionLast (resolve_language t s).2 sp = some lg ∧
    sessionCount (resolve_language t s).2 sp lg = sessionCount s sp lg + 1 ∧
    sessionTotal (resolve_language t s).2 sp = sessionTotal s sp + 1 := by
  unfold resolve_language
  rw [h]
  dsimp only
  cases hget : dictGet s.speaker_profiles sp with
  | some p =>
    have hpl : p.last_language = none := by
      simpa [sessionLast, hget] using hlast
    rw [gsp_of_some s sp p hget]
    dsimp only
    rw [if_neg (fun hc => hc.2 hpl), hlang]
    dsimp only
    refine ⟨rfl, ?_, ?_, ?_⟩
    · simp [sessionLast, Session.set_profile, dictGet_dictInsert_self,
        SpeakerProfile.add_sample]
    · simp [sessionCount, Session.set_profile, dictGet_dictInsert_self,
        SpeakerProfile.add_sample, hget, countOf_bumpCount]
    · simp [sessionTotal, Session.set_profile, dictGet_dictInsert_self,
        SpeakerProfile.add_sample, hget]
  | none =>
    rw [gsp_of_none s sp hget]
    dsimp only
    rw [if_neg (fun hc => hc.2 rfl), hlang]
    dsimp only
    refine ⟨rfl, ?_, ?_, ?_⟩
    · simp [sessionLast, Session.set_profile, dictGet_dictInsert_self,
        SpeakerProfile.add_sample]
    · simp [sessionCount, Session.set_profile, dictGet_dictInsert_self,
        SpeakerProfile.add_sample, SpeakerProfile.fresh, hget, countOf, bumpCount,
        dictGet]
    · simp [sessionTotal, Session.set_profile, dictGet_dictInsert_self,
        SpeakerProfile.add_sample, SpeakerProfile.fresh, hget]

/-- C10 witness: first-ever sample for speaker 7 at confidence 0.3. -/
theorem resolver_first_sample_low_confidence_recorded_witness :
    tokFirstLow.confD < LANGUAGE_CONFIDENCE_THRESHOLD ∧
    (resolve_language tokFirstLow (emptySession "e" [] "en")).1 = "pt" ∧
    sessionLast (resolve_language tokFirstLow (emptySession "e" [] "en")).2 7 = some "pt" ∧
    sessionTotal (resolve_language tokFirstLow (emptySession "e" [] "en")).2 7 =
      sessionTotal (emptySession "e" [] "en") 7 + 1 :=
  ⟨by decide,
   (resolver_first_sample_low_confidence_recorded tokFirstLow (emptySession "e" [] "en")
     7 "pt" rfl rfl (by decide) rfl).1,
   (resolver_first_sample_low_confidence_recorded tokFirstLow (emptySession "e" [] "en")
     7 "pt" rfl rfl (by decide) rfl).2.1,
   (resolver_first_sample_low_confidence_recorded tokFirstLow (emptySession "e" [] "en")
     7 "pt" rfl rfl (by decide) rfl).2.2.2⟩

theorem resolve_inv (t : Token) (s : Session)
    (hs : ∀ kp ∈ s.speaker_profiles, kp.2.total_samples = sumCounts kp.2.language_counts) :
    ∀ kp ∈ (resolve_language t s).2.speaker_profiles,
      kp.2.total_samples = sumCounts kp.2.language_counts := by
  have hfresh : ∀ sid : Nat, (SpeakerProfile.fresh sid).total_samples =
      sumCounts (SpeakerProfile.fresh sid).language_counts := by
    intro sid
    simp [SpeakerProfile.fresh, sumCounts]
  unfold resolve_language
  cases ht : t.speaker with
  | none => exact hs
  | some sp =>
    dsimp only
    cases hget : dictGet s.speaker_profiles sp with
    | some p =>
      have hp : p.total_samples = sumCounts p.language_counts :=
        hs (sp, p) (dictGet_mem hget)
      rw [gsp_of_some s sp p hget]
      dsimp only
      split
      · exact hs
      · cases hlng : t.language with
        | some lg =>
          dsimp only [Session.set_profile]
          intro kp hkp
          rcases mem_dictInsert hkp with hkp' | hkp'
          · rw [hkp']
            exact add_sample_inv hp lg
          · exact hs kp hkp'
        | none =>
          dsimp only
          split <;> exact hs
    | none =>
      rw [gsp_of_none s sp hget]
      dsimp only
      have hext : ∀ kp ∈ s.speaker_profiles ++ [(sp, SpeakerProfile.fresh sp)],
          (Prod.snd kp).total_samples = sumCounts (Prod.snd kp).language_counts := by
        intro kp hkp
        rcases List.mem_append.mp hkp with hkp' | hkp'
        · exact hs kp hkp'
        · simp at hkp'
          rw [hkp']
          exact hfresh sp
      split
      · exact hext
      · cases hlng : t.language with
        | some lg =>
          dsimp only [Session.set_profile]
          intro kp hkp
          rcases mem_dictInsert hkp with hkp' | hkp'
          · rw [hkp']
            exact add_sample_inv (hfresh sp) lg
          · exact hext kp hkp'
        | none =>
          dsimp only [SpeakerProfile.fresh]
          exact hext

theorem resolveAll_inv (ts : List Token) (s : Session)
    (hs : ∀ kp ∈ s.speaker_profiles, kp.2.total_samples = sumCounts kp.2.language_counts) :
    ∀ kp ∈ (resolveAll ts s).speaker_profiles,
      kp.2.total_samples = sumCounts kp.2.language_counts := by
  induction ts generalizing s with
  | nil => exact hs
  | cons t ts ih =>
    simp only [resolveAll, List.foldl_cons]
    exact ih (resolve_language t s).2 (resolve_inv t s hs)

/-- C5: the profile invariant `total_samples == sum(language_counts
.values())` holds after any finite sequence of `resolve_language` calls,
for every profile in the session, provided it held before — in
particular for freshly created (empty) profiles. -/
theorem total_samples_eq_sum_counts_after_resolves (ts : List Token) (s : Session)
    (h1 : ∀ kp ∈ s.speaker_profiles, kp.2.total_samples = sumCounts kp.2.language_counts)
    (kp : Nat × SpeakerProfile) (h2 : kp ∈ (resolveAll ts s).speaker_profiles) :
    kp.2.total_samples = sumCounts kp.2.language_counts :=
  resolveAll_inv ts s h1 kp h2

/-- C5 witness: one resolve call over an empty session produces the
profile entry `kpW`, which satisfies the invariant. -/
theorem total_samples_eq_sum_counts_after_resolves_witness :
    kpW ∈ (resolveAll [tokHigh] (emptySession "e" [] "en")).speaker_profiles ∧
    kpW.2.total_samples = sumCounts kpW.2.language_counts :=
  ⟨by decide,
   total_samples_eq_sum_counts_after_resolves [tokHigh] (emptySession "e" [] "en")
     (by simp [emptySession]) kpW (by decide)⟩

theorem natDigitsRev_ne_nil (n : Nat) : natDigitsRev n ≠ [] := by
  unfold natDigitsRev
  split
  · simp
  · exact Nat.digits_ne_nil_iff_ne_zero.mpr (by assumption)

theorem natDigitsRev_lt (n : Nat) : ∀ d ∈ natDigitsRev n, d < 10 := by
  intro d hd
  unfold natDigitsRev at hd
  split at hd
  · simp at hd
    omega
  · exact Nat.digits_lt_base (by norm_num) hd

theorem digitChar10_isDigit {d : Nat} (h : d < 10) : (digitChar10 d).isDigit = true := by
  interval_cases d <;> decide

theorem digitChar10_toNat {d : Nat} (h : d < 10) : (digitChar10 d).toNat - 48 = d := by
  interval_cases d <;> decide

theorem foldl_congr_mem {α β : Type} {l : List β} {f g : α → β → α}
    (h : ∀ a b, b ∈ l → f a b = g a b) : ∀ init, l.foldl f init = l.foldl g init := by
  induction l with
  | nil => intro init; rfl
  | cons x xs ih =>
    intro init
    simp only [List.foldl_cons]
    rw [h init x (by simp)]
    exact ih (fun a b hb => h a b (List.mem_cons_of_mem _ hb)) _

theorem foldr_mul_add_eq_ofDigits (L : List Nat) :
    L.foldr (fun d a => a * 10 + d) 0 = Nat.ofDigits 10 L := by
  induction L with
  | nil => simp [Nat.ofDigits]
  | cons d L ih =>
    simp only [List.foldr_cons, Nat.ofDigits_cons, ih]
    ring

theorem ofDigits_natDigitsRev (n : Nat) : Nat.ofDigits 10 (natDigitsRev n) = n := by
  unfold natDigitsRev
  split
  · simp_all [Nat.ofDigits]
  · exact Nat.ofDigits_digits 10 n

theorem decode_encode (n : Nat) : decodeNatKey (encodeNatKey n) = some n := by
  have hlt := natDigitsRev_lt n
  have hne := natDigitsRev_ne_nil n
  unfold decodeNatKey encodeNatKey
  rw [if_pos]
  · congr 1
    rw [List.foldl_map]
    rw [foldl_congr_mem (g := fun a d => a * 10 + d)
        (fun a d hd => by
          rw [digitChar10_toNat (hlt d (List.mem_reverse.mp hd))])]
    rw [List.foldl_reverse]
    rw [show (fun x y => y * 10 + x) = (fun (d : Nat) (a : Nat) => a * 10 + d) from rfl]
    rw [foldr_mul_add_eq_ofDigits]
    exact ofDigits_natDigitsRev n
  · constructor
    · simp [hne]
    · rw [List.all_eq_true]
      intro c hc
      simp only [List.mem_map, List.mem_reverse] at hc
      obtain ⟨d, hd, rfl⟩ := hc
      exact digitChar10_isDigit (hlt d hd)

theorem from_dict_to_dict {p : SpeakerProfile} {k : Nat} (h : p.speaker_id = k) :
    SpeakerProfile.from_dict k p.to_dict = p := by
  cases p
  subst h
  rfl

theorem WF_dictInsert {m : List (Nat × SpeakerProfile)} {k : Nat} {v : SpeakerProfile}
    (hwf : profilesWF m) (hv : v.speaker_id = k) : profilesWF (dictInsert m k v) := by
  by_cases hk : k ∈ m.map Prod.fst
  · constructor
    · rw [keys_dictInsert_of_mem v hk]
      exact hwf.1
    · intro kp hkp
      rcases mem_dictInsert hkp with h | h
      · rw [h]
        exact hv
      · exact hwf.2 kp h
  · rw [dictInsert_of_not_mem v hk]
    constructor
    · rw [List.map_append]
      rw [List.nodup_append]
      refine ⟨hwf.1, List.nodup_singleton k, ?_⟩
      intro a ha hak
      simp at hak
      exact hk (hak ▸ ha)
    · intro kp hkp
      rcases List.mem_append.mp hkp with h | h
      · exact hwf.2 kp h
      · simp at h
        rw [h]
        exact hv

theorem WF_gsp (s : Session) (sid : Nat) (hwf : profilesWF s.speaker_profiles) :
    profilesWF ((s.get_speaker_profile sid).2).speaker_profiles := by
  cases hget : dictGet s.speaker_profiles sid with
  | some p =>
    rw [gsp_of_some s sid p hget]
    exact hwf
  | none =>
    rw [gsp_of_none s sid hget]
    dsimp only
    have hk : sid ∉ s.speaker_profiles.map Prod.fst := dictGet_eq_none_iff.mp hget
    rw [← dictInsert_of_not_mem (SpeakerProfile.fresh sid) hk]
    exact WF_dictInsert hwf rfl

theorem resolve_WF (t : Token) (s : Session) (hwf : profilesWF s.speaker_profiles) :
    profilesWF ((resolve_language t s).2).speaker_profiles := by
  unfold resolve_language
  cases ht : t.speaker with
  | none => exact hwf
  | some sp =>
    dsimp only
    have h1 : profilesWF ((s.get_speaker_profile sp).2).speaker_profiles := WF_gsp s sp hwf
    have hsid : (s.get_speaker_profile sp).1.speaker_id = sp := by
      cases hget : dictGet s.speaker_profiles sp with
      | some p =>
        rw [gsp_of_some s sp p hget]
        exact hwf.2 (sp, p) (dictGet_mem hget)
      | none =>
        rw [gsp_of_none s sp hget]
        rfl
    split
    · exact h1
    · split
      · dsimp only [Session.set_profile]
        exact WF_dictInsert h1 (by simp [SpeakerProfile.add_sample, hsid])
      · split <;> exact h1

theorem Reach_WF {s : Session} (h : Reach s) : profilesWF s.speaker_profiles := by
  induction h with
  | init name sl tl =>
    exact ⟨List.nodup_nil, fun kp hkp => absurd hkp (List.not_mem_nil kp)⟩
  | add_token t _ ih => exact ih
  | add_audio_frame f _ ih => exact ih
  | resolve t _ ih => exact resolve_WF _ _ ih

theorem loadProfilesLoop_encode :
    ∀ (l m : List (Nat × SpeakerProfile)), profilesWF l →
      (∀ k ∈ l.map Prod.fst, k ∉ m.map Prod.fst) →
      loadProfilesLoop m (l.map (fun kp => (encodeNatKey kp.1, kp.2.to_dict))) =
        (m ++ l, true) := by
  intro l
  induction l with
  | nil =>
    intro m _ _
    simp [loadProfilesLoop]
  | cons kp l ih =>
    intro m hwf hdisj
    obtain ⟨k, p⟩ := kp
    have hk : p.speaker_id = k := hwf.2 (k, p) (by simp)
    have hknotl : k ∉ l.map Prod.fst := by
      have := hwf.1
      simp only [List.map_cons, List.nodup_cons] at this
      exact this.1
    have hknotm : k ∉ m.map Prod.fst := hdisj k (by simp)
    simp only [List.map_cons, loadProfilesLoop, decode_encode]
    rw [from_dict_to_dict hk]
    rw [dictInsert_of_not_mem p hknotm]
    rw [ih (m ++ [(k, p)])]
    · simp
    · refine ⟨?_, ?_⟩
      · have := hwf.1
        simp only [List.map_cons, List.nodup_cons] at this
        exact this.2
      · intro kq hkq
        exact hwf.2 kq (List.mem_cons_of_mem _ hkq)
    · intro k' hk'
      rw [List.map_append]
      rw [List.mem_append]
      rintro (h | h)
      · exact hdisj k' (List.mem_cons_of_mem _ hk') h
      · simp at h
        rw [h] at hk'
        exact hknotl hk'

/-- C8: persistence round-trip.  For every session built through the
ingestion operations, writing `save_state` and constructing a fresh
`Session` over the same directory (which runs `_load_state` on that
file) reproduces `final_tokens`, the full `speaker_profiles` table
(same integer keys, same counts, last language and totals), and the
language configuration. -/
theorem persistence_round_trip (s : Session) (hs : Reach s)
    (name2 : String) (sl : List String) (tl : String) :
    (reload s name2 sl tl).final_tokens = s.final_tokens ∧
    (reload s name2 sl tl).speaker_profiles = s.speaker_profiles ∧
    (reload s name2 sl tl).source_languages = s.source_languages ∧
    (reload s name2 sl tl).target_language = s.target_language := by
  have hwf := Reach_WF hs
  have hload := loadProfilesLoop_encode s.speaker_profiles [] hwf (by simp)
  unfold reload Session.init Session.load_state Session.applyState Session.save_state
  dsimp only
  simp only [Option.getD_some]
  rw [hload]
  simp

/-- C8 witness: a concrete reachable session (one resolved sample, one
stored token) survives the round-trip unchanged. -/
theorem persistence_round_trip_witness :
    (reload sReached "r" [] "x").final_tokens = sReached.final_tokens ∧
    (reload sReached "r" [] "x").speaker_profiles = sReached.speaker_profiles ∧
    (reload sReached "r" [] "x").source_languages = sReached.source_languages ∧
    (reload sReached "r" [] "x").target_language = sReached.target_language :=
  persistence_round_trip sReached
    (Reach.add_token tokFr (Reach.resolve tokHigh (Reach.init "w" ["es"] "en")))
    "r" [] "x"
